import Mathlib

/-!
# Verification of the ModrSwipe result aggregation, store, validation and retry core

This file gives a shallow embedding of the algorithmic core of the ModrSwipe
repository and proves (or refutes) the specification's claims about it.

Embedded code:
* `voteService.calculateResults` (src/services, percentage-based classifier);
* the `ResultsPage` results `useMemo` (tie-first classifier), called
  `computeResults` following the spec's vocabulary;
* the zustand store mutators `setMods` and `addVote` (src/store/useAppStore.ts)
  together with `voteService.submitVote`'s ballot construction;
* `validateModData`, `ValidationError`/`FirebaseError` and `withRetry`
  (src/utils, firebase utilities);

JavaScript numbers are modelled with exact arithmetic (`Nat`/`Int`, and `ℚ` for
the percentage computation `likes / total * 100`); untyped JavaScript values are
modelled by the `JSVal` universe below.
-/

/-! ## A universe of untyped JavaScript values

`JSVal` models the loosely typed values crossing the Firebase boundary.
`date t` models a `Date` object whose time value is `t` milliseconds
(`none` models an Invalid Date, i.e. a `NaN` time value).  Objects are
insertion-ordered association lists, matching the iteration order of string
keys in JavaScript objects. -/

inductive JSVal where
  | null
  | undefinedV
  | bool (b : Bool)
  | num (n : Int)
  | str (s : String)
  | date (t : Option Int)
  | arr (elems : List JSVal)
  | obj (fields : List (String × JSVal))

/-- JavaScript truthiness (`Boolean(v)`).  `num` carries an `Int`, so the
`NaN`-is-falsy case does not arise for the integer counts used here. -/
def truthy : JSVal → Bool
  | .null => false
  | .undefinedV => false
  | .bool b => b
  | .num n => n != 0
  | .str s => s != ""
  | .date _ => true
  | .arr _ => true
  | .obj _ => true

/-- The JavaScript `typeof` operator (`typeof null` is `"object"`, arrays and
`Date`s are `"object"`). -/
def typeOf : JSVal → String
  | .null => "object"
  | .undefinedV => "undefined"
  | .bool _ => "boolean"
  | .num _ => "number"
  | .str _ => "string"
  | .date _ => "object"
  | .arr _ => "object"
  | .obj _ => "object"

/-- Property access `v.k`.  Absent properties give `undefined`; primitive
receivers also give `undefined` for the property names used by this code
(the embedded functions only dereference values they have checked). -/
def getProp : JSVal → String → JSVal
  | .obj fields, k =>
    match fields.lookup k with
    | some v => v
    | none => .undefinedV
  | _, _ => .undefinedV

/-- The JavaScript `Array.isArray` test. -/
def isArray : JSVal → Bool
  | .arr _ => true
  | _ => false

/-- The element list of an array value (only applied to arrays). -/
def arrElems : JSVal → List JSVal
  | .arr xs => xs
  | _ => []

/-- The string payload of a string value (only applied to checked strings). -/
def asStr : JSVal → String
  | .str s => s
  | _ => ""

/-- JavaScript `a || b` restricted to the uses in this code (the result is `a`
when `a` is truthy and `b` otherwise). -/
def jsOr (a b : JSVal) : JSVal :=
  if truthy a then a else b

/-- Strict equality `v === "s"` against a string literal. -/
def jsStrEq (v : JSVal) (s : String) : Bool :=
  match v with
  | .str t => t == s
  | _ => false

/-- JavaScript object update `{ ...o, [k]: v }`: an existing key keeps its
position and gets the new value, a new key is appended. -/
def objUpd {β : Type} : List (String × β) → String → β → List (String × β)
  | [], k, v => [(k, v)]
  | (k', v') :: rest, k, v =>
    if k' = k then (k, v) :: rest else (k', v') :: objUpd rest k v

/-! ## The result aggregator, variant 1: `voteService.calculateResults`

Transcribed from `voteService.calculateResults(mods, votes)`:
per mod it filters the votes by `modId`, counts `'like'` and `'dislike'`
decisions, computes `percentage = total > 0 ? (likes / total) * 100 : 0` and
the comment list, then buckets by `percentage >= 50` / `percentage < 50` /
`total > 0 && Math.abs(likes - dislikes) <= 1` and sorts each bucket with a
numeric comparator (`b.likes - a.likes` etc., i.e. descending).  The
`Array.prototype.sort` calls are modelled by the stable `List.insertionSort`
with the comparator's "comparator result is nonpositive" relation; every
ECMAScript-conforming sort agrees with this model up to the order of
comparator-equal elements, which none of the claims observe. -/

/-- An item under vote (a "mod"): its identity `id` plus payload. -/
structure SMod where
  id : String
  name : String
deriving DecidableEq

/-- A cast ballot as consumed by the aggregators: target item, decision string
and optional comment. -/
structure Vote0 where
  modId : String
  vote : String
  comment : Option String
deriving DecidableEq

/-- One entry of the `results` array built by `calculateResults`: the spread
mod together with its tallies.  The `percentage` field of the JavaScript
record is `total > 0 ? (likes / total) * 100 : 0`; it is only ever compared
against `50` (the displayed value is presentation-layer).  We keep the
comparisons as the exact integer conditions `pctGE50` / `pctLT50` below and
prove (`percentageQ_ge50_iff`, `percentageQ_lt50_iff`) that they coincide with
the exact rational semantics of the source expression. -/
structure CalcResult where
  mod : SMod
  likes : Nat
  dislikes : Nat
  total : Nat
  comments : List String
deriving DecidableEq

/-- The exact value of the `percentage` field: `total > 0 ? likes / total * 100 : 0`. -/
def percentageQ (likes total : Nat) : ℚ :=
  if 0 < total then ((likes : ℚ) / (total : ℚ)) * 100 else 0

/-- The filter condition `mod.percentage >= 50`, in exact integer form. -/
def pctGE50 (likes total : Nat) : Bool :=
  decide (0 < total) && decide (50 * total ≤ 100 * likes)

/-- The filter condition `mod.percentage < 50`, in exact integer form. -/
def pctLT50 (likes total : Nat) : Bool :=
  total == 0 || decide (100 * likes < 50 * total)

/-- Truthiness of a ballot's `comment` field (`null`/`""` are falsy). -/
def commentTruthy : Option String → Bool
  | some s => s != ""
  | none => false

/-- The per-mod tally of `calculateResults`. -/
def tallyOne (votes : List Vote0) (m : SMod) : CalcResult :=
  let mv := votes.filter (fun v => v.modId == m.id)
  let likes := (mv.filter (fun v => v.vote == "like")).length
  let dislikes := (mv.filter (fun v => v.vote == "dislike")).length
  let total := likes + dislikes
  { mod := m
    likes := likes
    dislikes := dislikes
    total := total
    comments := (mv.filter (fun v => commentTruthy v.comment)).map
      (fun v => v.comment.getD "") }

/-- The three buckets returned by `calculateResults`. -/
structure CalcBuckets where
  approved : List CalcResult
  rejected : List CalcResult
  controversial : List CalcResult
deriving DecidableEq

/-- Transcription of `voteService.calculateResults` (the local `results` array is written out
as `mods.map (tallyOne votes)` in each bucket). -/
def calculateResults (mods : List SMod) (votes : List Vote0) : CalcBuckets :=
  { approved :=
      List.insertionSort (fun a b => b.likes ≤ a.likes)
        ((mods.map (tallyOne votes)).filter (fun r => pctGE50 r.likes r.total))
    rejected :=
      List.insertionSort (fun a b => b.dislikes ≤ a.dislikes)
        ((mods.map (tallyOne votes)).filter (fun r => pctLT50 r.likes r.total))
    controversial :=
      List.insertionSort (fun a b => b.total ≤ a.total)
        ((mods.map (tallyOne votes)).filter (fun r =>
          decide (0 < r.total) && decide (((r.likes : Int) - r.dislikes).natAbs ≤ 1))) }

/-! ## The result aggregator, variant 2: the `ResultsPage` `useMemo`

Transcribed from `ResultsPage`: a record `modVotes` keyed by mod id is
initialised with zero counts for every proposed mod, every vote whose `modId`
hits an existing entry increments `likes` (decision `'like'`) or `dislikes`
(any other decision), and the record's values are bucketed by the trichotomy
`likes > dislikes` / `likes < dislikes` / `likes === dislikes`, each bucket
sorted descending (`approved`/`controversial` by `likes`, `rejected` by
`dislikes`). -/

/-- One value of the `modVotes` record in the `ResultsPage` aggregation. -/
structure RPEntry where
  likes : Nat
  dislikes : Nat
  mod : SMod
deriving DecidableEq

/-- The initialisation loop `mods.proposed.forEach(mod => modVotes[mod.id] = ...)`. -/
def initVotes (mods : List SMod) : List (String × RPEntry) :=
  mods.foldl (fun acc m => objUpd acc m.id ⟨0, 0, m⟩) []

/-- The counting step for one vote: `if (modVotes[vote.modId]) { ... }`. -/
def applyVote (acc : List (String × RPEntry)) (v : Vote0) : List (String × RPEntry) :=
  match acc.lookup v.modId with
  | none => acc
  | some e =>
    objUpd acc v.modId
      (if v.vote == "like" then { e with likes := e.likes + 1 }
       else { e with dislikes := e.dislikes + 1 })

/-- The fully counted `modVotes` record. -/
def rpTally (mods : List SMod) (votes : List Vote0) : List (String × RPEntry) :=
  votes.foldl applyVote (initVotes mods)

/-- The three buckets of the `ResultsPage` aggregation. -/
structure RPBuckets where
  approved : List RPEntry
  rejected : List RPEntry
  controversial : List RPEntry
deriving DecidableEq

/-- The `ResultsPage` result aggregation (the spec's `computeResults`); the
local `Object.values(modVotes)` is written out as
`(rpTally mods votes).map Prod.snd` in each bucket. -/
def computeResults (mods : List SMod) (votes : List Vote0) : RPBuckets :=
  { approved :=
      List.insertionSort (fun a b => b.likes ≤ a.likes)
        (((rpTally mods votes).map Prod.snd).filter (fun e => decide (e.dislikes < e.likes)))
    rejected :=
      List.insertionSort (fun a b => b.dislikes ≤ a.dislikes)
        (((rpTally mods votes).map Prod.snd).filter (fun e => decide (e.likes < e.dislikes)))
    controversial :=
      List.insertionSort (fun a b => b.likes ≤ a.likes)
        (((rpTally mods votes).map Prod.snd).filter (fun e => e.likes == e.dislikes)) }

/-! ## The state container (`useAppStore`)

Transcribed from `src/store/useAppStore.ts`: the type-guard functions
`isValidMod` / `isValidVote` over untyped input, the initial state, and the
mutators `setMods` and `addVote`.  The `votes` field is a JavaScript record
keyed by `vote.id`, modelled as an insertion-ordered association list with
`objUpd` update semantics. -/

/-- The store's `isValidMod` type guard. -/
def isValidModJS (m : JSVal) : Bool :=
  truthy m &&
    typeOf (getProp m "id") == "string" &&
    typeOf (getProp m "roomId") == "string" &&
    typeOf (getProp m "name") == "string" &&
    typeOf (getProp m "description") == "string" &&
    typeOf (getProp m "proposedBy") == "string"

/-- The store's `isValidVote` type guard. -/
def isValidVoteJS (v : JSVal) : Bool :=
  truthy v &&
    typeOf (getProp v "id") == "string" &&
    typeOf (getProp v "roomId") == "string" &&
    typeOf (getProp v "modId") == "string" &&
    typeOf (getProp v "userId") == "string" &&
    (jsStrEq (getProp v "vote") "like" || jsStrEq (getProp v "vote") "dislike")

/-- The `isLoading` sub-state. -/
structure LoadingSt where
  user : Bool
  room : Bool
  mods : Bool

/-- The `mods` sub-state: proposed list, current mod (or `null`), index. -/
structure ModsSt where
  proposed : List JSVal
  current : JSVal
  currentIndex : Int

/-- The full store state (fields relevant to the embedded mutators). -/
structure AppSt where
  isLoading : LoadingSt
  user : JSVal
  room : JSVal
  mods : ModsSt
  votes : List (String × JSVal)

/-- The store's initial state. -/
def initialState : AppSt :=
  { isLoading := ⟨false, false, false⟩
    user := .null
    room := .null
    mods := { proposed := [], current := .null, currentIndex := 0 }
    votes := [] }

/-- The `setMods` mutator: non-arrays reset `proposed` to `[]`, arrays are
filtered through `isValidMod`; the other `mods` sub-fields are spread through
unchanged. -/
def setMods (mods : JSVal) (s : AppSt) : AppSt :=
  if !isArray mods then
    { s with mods := { s.mods with proposed := [] } }
  else
    { s with mods := { s.mods with proposed := (arrElems mods).filter isValidModJS } }

/-- The `addVote` mutator: invalid votes are dropped, valid ones are written
into the record at key `vote.id` (`{ ...state.votes, [vote.id]: vote }`). -/
def addVote (vote : JSVal) (s : AppSt) : AppSt :=
  if !isValidVoteJS vote then s
  else { s with votes := objUpd s.votes (asStr (getProp vote "id")) vote }

/-- The ballot object built by `voteService.submitVote(roomId, modId, userId,
vote, comment)`: its id is the composite key `` `${userId}_${modId}` ``; the
`createdAt` ISO string is passed in as a parameter. -/
def submitVoteData (roomId modId userId vote : String) (comment : JSVal)
    (createdAt : String) : JSVal :=
  .obj [("id", .str (userId ++ "_" ++ modId)),
        ("roomId", .str roomId),
        ("modId", .str modId),
        ("userId", .str userId),
        ("vote", .str vote),
        ("comment", comment),
        ("createdAt", .str createdAt)]

/-! ## Error values and the retry wrapper

Transcribed from the firebase error utilities: the `ValidationError` and
`FirebaseError` classes and the `withRetry` loop.  A thrown JavaScript value is
modelled by `JSError`; `undefinedV` models `throw lastError!` firing while
`lastError` is still `undefined` (which happens exactly when the `for` loop
body never ran, i.e. `maxAttempts < 1`). -/

inductive JSError where
  /-- An instance of the `FirebaseError` class (`code` may be `undefined`). -/
  | fireb (msg : String) (code : Option String)
  /-- An instance of the `ValidationError` class. -/
  | validationErr (msg : String) (field : Option String)
  /-- Any other thrown value carrying an optional `code` property. -/
  | plain (msg : String) (code : Option String)
  /-- The `undefined` value (thrown by `throw lastError!` before assignment). -/
  | undefinedV
deriving DecidableEq

/-- The test `error instanceof FirebaseError`. -/
def isFirebaseInstance : JSError → Bool
  | .fireb _ _ => true
  | _ => false

/-- The `code` property of a thrown value. -/
def errCode : JSError → Option String
  | .fireb _ c => c
  | .plain _ c => c
  | _ => none

/-- The (merged) retry options `{ ...DEFAULT_RETRY_OPTIONS, ...options }`. -/
structure RetryConfig where
  maxAttempts : Nat
  baseDelay : Nat
  maxDelay : Nat
  backoffFactor : Nat
  retryableErrors : List String
deriving DecidableEq

/-- The `DEFAULT_RETRY_OPTIONS` constant. -/
def defaultRetryOptions : RetryConfig :=
  { maxAttempts := 3
    baseDelay := 1000
    maxDelay := 10000
    backoffFactor := 2
    retryableErrors :=
      ["network-request-failed", "timeout", "unavailable", "deadline-exceeded",
       "resource-exhausted", "internal", "aborted"] }

/-- The retryability test
`error instanceof FirebaseError && error.code && config.retryableErrors.includes(error.code)`
(`error.code` is truthy iff it is a non-empty string). -/
def isRetryable (cfg : RetryConfig) (e : JSError) : Bool :=
  isFirebaseInstance e &&
    (match errCode e with
     | some c => c != "" && cfg.retryableErrors.contains c
     | none => false)

/-- The wait `Math.min(baseDelay * backoffFactor ** (attempt - 1), maxDelay)`. -/
def retryDelay (cfg : RetryConfig) (attempt : Nat) : Nat :=
  min (cfg.baseDelay * cfg.backoffFactor ^ (attempt - 1)) cfg.maxDelay

/-- The observable outcome of a `withRetry` run: the returned value or thrown
error, the number of times the operation was invoked, and the waits performed. -/
structure RetryOutcome (T : Type) where
  result : Except JSError T
  calls : Nat
  delays : List Nat

/-- The `for (let attempt = 1; attempt <= config.maxAttempts; attempt++)` loop
of `withRetry`.  The operation is modelled as the sequence of its invocation
outcomes (`op i` is what the `i`-th invocation, 0-based, returns or throws);
`attempt` is the JavaScript loop counter and `remaining` the number of loop
iterations still allowed (`config.maxAttempts - attempt + 1`).  When
`remaining` is exhausted without the body ever running, `lastError` is still
`undefined` and `throw lastError!` throws it. -/
def withRetryGo {T : Type} (op : Nat → Except JSError T) (cfg : RetryConfig) :
    Nat → Nat → RetryOutcome T
  | _, 0 => ⟨.error .undefinedV, 0, []⟩
  | attempt, remaining + 1 =>
    match op (attempt - 1) with
    | .ok v => ⟨.ok v, 1, []⟩
    | .error e =>
      if remaining = 0 then
        -- `attempt === config.maxAttempts`: break, then `throw lastError`
        ⟨.error e, 1, []⟩
      else if isRetryable cfg e then
        let d := retryDelay cfg attempt
        let rest := withRetryGo op cfg (attempt + 1) remaining
        ⟨rest.result, rest.calls + 1, d :: rest.delays⟩
      else
        -- non-retryable: `throw error` immediately
        ⟨.error e, 1, []⟩

/-- The function `withRetry(operation, operationName, options)` with the merged config. -/
def withRetry {T : Type} (op : Nat → Except JSError T) (cfg : RetryConfig) :
    RetryOutcome T :=
  withRetryGo op cfg 1 cfg.maxAttempts

/-! ## The validation layer: `validateModData`

Transcribed from `src/utils/validation.ts`.  `new Date(string)` parsing is not
algorithmically specified by the source, so it is passed in as a parameter
`parseDate` (`none` models an unparseable string, i.e. a `NaN` time value);
every theorem below is proved for all `parseDate` functions. -/

/-- A `ValidationError` value: message plus optional offending field. -/
structure VError where
  msg : String
  field : Option String
deriving DecidableEq

/-- The object literal returned by a successful `validateModData` call. -/
def mkValidatedMod (data : JSVal) (createdAt : JSVal) : JSVal :=
  .obj [("id", getProp data "id"),
        ("roomId", getProp data "roomId"),
        ("name", getProp data "name"),
        ("url", jsOr (getProp data "url") .undefinedV),
        ("description", getProp data "description"),
        ("image", jsOr (getProp data "image") .undefinedV),
        ("proposedBy", getProp data "proposedBy"),
        ("createdAt", createdAt)]

/-- Transcription of `validateModData(data)`: `Except.error` models a thrown `ValidationError`. -/
def validateModData (parseDate : String → Option Int) (data : JSVal) :
    Except VError JSVal :=
  if !truthy data || typeOf data != "object" then
    .error ⟨"Invalid mod data: must be an object", none⟩
  else if !truthy (getProp data "id") || typeOf (getProp data "id") != "string" then
    .error ⟨"Invalid mod data: id is required and must be a string", some "id"⟩
  else if !truthy (getProp data "roomId") || typeOf (getProp data "roomId") != "string" then
    .error ⟨"Invalid mod data: roomId is required and must be a string", some "roomId"⟩
  else if !truthy (getProp data "name") || typeOf (getProp data "name") != "string" then
    .error ⟨"Invalid mod data: name is required and must be a string", some "name"⟩
  else if !truthy (getProp data "description") || typeOf (getProp data "description") != "string" then
    .error ⟨"Invalid mod data: description is required and must be a string", some "description"⟩
  else if !truthy (getProp data "proposedBy") || typeOf (getProp data "proposedBy") != "string" then
    .error ⟨"Invalid mod data: proposedBy is required and must be a string", some "proposedBy"⟩
  else if truthy (getProp data "url") && typeOf (getProp data "url") != "string" then
    .error ⟨"Invalid mod data: url must be a string", some "url"⟩
  else if truthy (getProp data "image") && typeOf (getProp data "image") != "string" then
    .error ⟨"Invalid mod data: image must be a string", some "image"⟩
  else
    match getProp data "createdAt" with
    | .date t => .ok (mkValidatedMod data (.date t))
    | .str s =>
      match parseDate s with
      | some t => .ok (mkValidatedMod data (.date (some t)))
      | none => .error ⟨"Invalid mod data: createdAt must be a valid date", some "createdAt"⟩
    | _ =>
      .error ⟨"Invalid mod data: createdAt is required and must be a date or ISO string",
              some "createdAt"⟩

/-! ## Helper lemmas: the retry loop -/

/-- A successful invocation returns at once. -/
theorem withRetryGo_ok {T : Type} {op : Nat → Except JSError T} {cfg : RetryConfig}
    {attempt rem : Nat} {v : T} (h : op (attempt - 1) = .ok v) :
    withRetryGo op cfg attempt (rem + 1) = ⟨.ok v, 1, []⟩ := by
  simp [withRetryGo, h]

/-- A failure that is not retryable is rethrown at once, whether or not
attempts remain. -/
theorem withRetryGo_nonretryable {T : Type} {op : Nat → Except JSError T} {cfg : RetryConfig}
    {attempt rem : Nat} {e : JSError} (h : op (attempt - 1) = .error e)
    (hnr : isRetryable cfg e = false) :
    withRetryGo op cfg attempt (rem + 1) = ⟨.error e, 1, []⟩ := by
  cases rem <;> simp [withRetryGo, h, hnr]

/-- A retryable failure with attempts remaining waits and loops. -/
theorem withRetryGo_retry {T : Type} {op : Nat → Except JSError T} {cfg : RetryConfig}
    {attempt rem : Nat} {e : JSError} (h : op (attempt - 1) = .error e)
    (hr : isRetryable cfg e = true) :
    withRetryGo op cfg attempt (rem + 2) =
      ⟨(withRetryGo op cfg (attempt + 1) (rem + 1)).result,
       (withRetryGo op cfg (attempt + 1) (rem + 1)).calls + 1,
       retryDelay cfg attempt :: (withRetryGo op cfg (attempt + 1) (rem + 1)).delays⟩ := by
  simp [withRetryGo, h, hr]

/-- A failure on the final allowed attempt breaks out and rethrows it. -/
theorem withRetryGo_last {T : Type} {op : Nat → Except JSError T} {cfg : RetryConfig}
    {attempt : Nat} {e : JSError} (h : op (attempt - 1) = .error e) :
    withRetryGo op cfg attempt 1 = ⟨.error e, 1, []⟩ := by
  simp [withRetryGo, h]

/-! ## Helper lemmas: association-list update (`objUpd`) -/

theorem objUpd_lookup_self {β : Type} (l : List (String × β)) (k : String) (v : β) :
    (objUpd l k v).lookup k = some v := by
  induction l with
  | nil => simp [objUpd]
  | cons p t ih =>
    by_cases h : p.1 = k
    · simp [objUpd, h]
    · have hk : (k == p.1) = false := by
        simp only [beq_eq_false_iff_ne]
        exact fun hh => h hh.symm
      simp [objUpd, h, List.lookup, hk, ih]

theorem objUpd_of_not_mem {β : Type} {l : List (String × β)} {k : String} (v : β)
    (h : k ∉ l.map Prod.fst) : objUpd l k v = l ++ [(k, v)] := by
  induction l with
  | nil => simp [objUpd]
  | cons p t ih =>
    simp only [List.map_cons, List.mem_cons] at h
    push_neg at h
    simp [objUpd, Ne.symm h.1, ih h.2]

theorem objUpd_keys_of_mem {β : Type} {l : List (String × β)} {k : String} (v : β)
    (h : k ∈ l.map Prod.fst) : (objUpd l k v).map Prod.fst = l.map Prod.fst := by
  induction l with
  | nil => simp at h
  | cons p t ih =>
    by_cases hp : p.1 = k
    · simp [objUpd, hp]
    · simp only [List.map_cons, List.mem_cons] at h
      rcases h with h | h

      · exact absurd h.symm hp
      · simp [objUpd, hp, ih h]

theorem objUpd_keys_mem {β : Type} (l : List (String × β)) (k : String) (v : β) :
    k ∈ (objUpd l k v).map Prod.fst := by
  by_cases h : k ∈ l.map Prod.fst
  · rw [objUpd_keys_of_mem v h]; exact h
  · rw [objUpd_of_not_mem v h]; simp

theorem objUpd_keys_nodup {β : Type} {l : List (String × β)} (k : String) (v : β)
    (h : (l.map Prod.fst).Nodup) : ((objUpd l k v).map Prod.fst).Nodup := by
  by_cases hm : k ∈ l.map Prod.fst
  · rw [objUpd_keys_of_mem v hm]; exact h
  · rw [objUpd_of_not_mem v hm, List.map_append]
    exact List.Nodup.append h (List.nodup_singleton k)
      ((List.disjoint_singleton).mpr hm)

/-! ## Claim theorems: the retry wrapper (C6, C7, C10) -/

/-- C6.  With the default options (`maxAttempts = 3`), an operation that fails
on its first two invocations with retryable errors and succeeds on the third
makes `withRetry` return the success value after exactly 3 invocations. -/
theorem withRetry_third_attempt_success {T : Type} (op : Nat → Except JSError T)
    (e1 e2 : JSError) (v : T)
    (h0 : op 0 = .error e1) (h1 : op 1 = .error e2) (h2 : op 2 = .ok v)
    (hr1 : isRetryable defaultRetryOptions e1 = true)
    (hr2 : isRetryable defaultRetryOptions e2 = true) :
    (withRetry op defaultRetryOptions).result = .ok v ∧
    (withRetry op defaultRetryOptions).calls = 3 := by
  have g3 : withRetryGo op defaultRetryOptions 3 1 = ⟨.ok v, 1, []⟩ :=
    withRetryGo_ok (by simpa using h2)
  have g2 : withRetryGo op defaultRetryOptions 2 2 =
      ⟨(withRetryGo op defaultRetryOptions 3 1).result,
       (withRetryGo op defaultRetryOptions 3 1).calls + 1,
       retryDelay defaultRetryOptions 2 :: (withRetryGo op defaultRetryOptions 3 1).delays⟩ :=
    withRetryGo_retry (by simpa using h1) hr2
  have g1 : withRetryGo op defaultRetryOptions 1 3 =
      ⟨(withRetryGo op defaultRetryOptions 2 2).result,
       (withRetryGo op defaultRetryOptions 2 2).calls + 1,
       retryDelay defaultRetryOptions 1 :: (withRetryGo op defaultRetryOptions 2 2).delays⟩ :=
    withRetryGo_retry (by simpa using h0) hr1
  have hw : withRetry op defaultRetryOptions = withRetryGo op defaultRetryOptions 1 3 := rfl
  rw [hw, g1, g2, g3]
  exact ⟨rfl, rfl⟩

/-- C6 witness: a concrete operation failing twice with `unavailable` and then
returning `42`. -/
theorem withRetry_third_attempt_success_wit :
    ((fun n => if n = 0 then Except.error (JSError.fireb "u1" (some "unavailable"))
       else if n = 1 then Except.error (JSError.fireb "u2" (some "unavailable"))
       else Except.ok 42 : Nat → Except JSError Nat) 0
        = .error (JSError.fireb "u1" (some "unavailable")) ∧
     isRetryable defaultRetryOptions (JSError.fireb "u1" (some "unavailable")) = true) ∧
    (withRetry (fun n => if n = 0 then Except.error (JSError.fireb "u1" (some "unavailable"))
       else if n = 1 then Except.error (JSError.fireb "u2" (some "unavailable"))
       else Except.ok 42 : Nat → Except JSError Nat) defaultRetryOptions).result = .ok 42 ∧
    (withRetry (fun n => if n = 0 then Except.error (JSError.fireb "u1" (some "unavailable"))
       else if n = 1 then Except.error (JSError.fireb "u2" (some "unavailable"))
       else Except.ok 42 : Nat → Except JSError Nat) defaultRetryOptions).calls = 3 :=
  ⟨⟨rfl, by decide⟩,
   withRetry_third_attempt_success _ _ _ 42 rfl rfl rfl (by decide) (by decide)⟩

/-- C7 counterexample.  With `maxAttempts` configured to `0`, a terminally
failing operation is invoked zero times (not once) and the thrown value is
`undefined` (`lastError` was never assigned), not the operation's error —
refuting the claim's "regardless of the configured maxAttempts". -/
theorem withRetry_zero_attempts_cex :
    (withRetry
      (fun _ => (Except.error (JSError.validationErr "Invalid data" none) : Except JSError Nat))
      { defaultRetryOptions with maxAttempts := 0 }).calls = 0 ∧
    (withRetry
      (fun _ => (Except.error (JSError.validationErr "Invalid data" none) : Except JSError Nat))
      { defaultRetryOptions with maxAttempts := 0 }).result = .error .undefinedV :=
  ⟨rfl, rfl⟩

/-- C7 (amended).  For every configuration that allows at least one attempt,
an operation whose first invocation throws a non-retryable error is invoked
exactly once; `withRetry` rethrows that same error and performs no waits. -/
theorem withRetry_terminal_single_attempt {T : Type} (cfg : RetryConfig)
    (op : Nat → Except JSError T) (e : JSError)
    (hmax : 1 ≤ cfg.maxAttempts) (h0 : op 0 = .error e)
    (hnr : isRetryable cfg e = false) :
    withRetry op cfg = ⟨.error e, 1, []⟩ := by
  obtain ⟨n, hn⟩ : ∃ n, cfg.maxAttempts = n + 1 := ⟨cfg.maxAttempts - 1, by omega⟩
  unfold withRetry
  rw [hn]
  exact withRetryGo_nonretryable (by simpa using h0) hnr

/-- C7 witness: a `ValidationError`-throwing operation under the default
options is invoked once and its error is rethrown with no waits. -/
theorem withRetry_terminal_single_attempt_wit :
    (1 ≤ defaultRetryOptions.maxAttempts ∧
     isRetryable defaultRetryOptions (JSError.validationErr "Invalid data" none) = false) ∧
    withRetry
      (fun _ => (Except.error (JSError.validationErr "Invalid data" none) : Except JSError Nat))
      defaultRetryOptions
      = ⟨.error (JSError.validationErr "Invalid data" none), 1, []⟩ :=
  ⟨⟨by decide, by decide⟩,
   withRetry_terminal_single_attempt defaultRetryOptions _ _ (by decide) rfl (by decide)⟩

/-- C10.  A thrown value that is not a `FirebaseError` instance — whatever its
`code` property — is never retryable: at whatever attempt it occurs, the loop
rethrows it at once with no further invocation and no wait; and anything that
is retryable is a `FirebaseError` instance whose (non-empty) `code` is listed
in `retryableErrors`. -/
theorem withRetry_only_firebase_retried {T : Type} (cfg : RetryConfig)
    (op : Nat → Except JSError T) (attempt rem : Nat) (e : JSError)
    (hfb : isFirebaseInstance e = false) (hop : op attempt = .error e) :
    isRetryable cfg e = false ∧
    withRetryGo op cfg (attempt + 1) (rem + 1) = ⟨.error e, 1, []⟩ ∧
    (∀ e' : JSError, isRetryable cfg e' = true →
      isFirebaseInstance e' = true ∧
      ∃ c, errCode e' = some c ∧ c ≠ "" ∧ c ∈ cfg.retryableErrors) := by
  have hnr : isRetryable cfg e = false := by simp [isRetryable, hfb]
  refine ⟨hnr, withRetryGo_nonretryable (by simpa using hop) hnr, ?_⟩
  intro e' h'
  simp only [isRetryable, Bool.and_eq_true] at h'
  refine ⟨h'.1, ?_⟩
  rcases hc : errCode e' with _ | c
  · rw [hc] at h'
    simp at h'
  · rw [hc] at h'
    have h2 := h'.2
    simp only [Bool.and_eq_true, bne_iff_ne, ne_eq] at h2
    exact ⟨c, rfl, h2.1, by simpa using h2.2⟩

/-- C10 witness: a plain `Error` carrying the retryable code string `timeout`
is still rethrown at once (it is not a `FirebaseError` instance). -/
theorem withRetry_only_firebase_retried_wit :
    (isFirebaseInstance (JSError.plain "boom" (some "timeout")) = false ∧
     (fun _ => (Except.error (JSError.plain "boom" (some "timeout")) : Except JSError Nat)) 0
       = .error (JSError.plain "boom" (some "timeout"))) ∧
    (isRetryable defaultRetryOptions (JSError.plain "boom" (some "timeout")) = false ∧
     withRetryGo
       (fun _ => (Except.error (JSError.plain "boom" (some "timeout")) : Except JSError Nat))
       defaultRetryOptions 1 3 = ⟨.error (JSError.plain "boom" (some "timeout")), 1, []⟩ ∧
     (∀ e' : JSError, isRetryable defaultRetryOptions e' = true →
       isFirebaseInstance e' = true ∧
       ∃ c, errCode e' = some c ∧ c ≠ "" ∧ c ∈ defaultRetryOptions.retryableErrors)) :=
  ⟨⟨rfl, rfl⟩,
   withRetry_only_firebase_retried defaultRetryOptions _ 0 2 _ rfl rfl⟩

/-! ## Claim theorems: the state container (C9, C5) -/

/-- C9.  `setMods` on a non-array input (null, undefined, object, string,
number, ...) empties the proposed list and leaves the other `mods` sub-fields
untouched (the embedding is a total function, so no exception is possible). -/
theorem setMods_nonarray_resets (s : AppSt) (v : JSVal) (h : isArray v = false) :
    (setMods v s).mods.proposed = [] ∧
    (setMods v s).mods.current = s.mods.current ∧
    (setMods v s).mods.currentIndex = s.mods.currentIndex := by
  simp [setMods, h]

/-- C9 witness: `setMods(null)` on the initial store. -/
theorem setMods_nonarray_resets_wit :
    isArray JSVal.null = false ∧
    ((setMods JSVal.null initialState).mods.proposed = [] ∧
     (setMods JSVal.null initialState).mods.current = initialState.mods.current ∧
     (setMods JSVal.null initialState).mods.currentIndex = initialState.mods.currentIndex) :=
  ⟨rfl, setMods_nonarray_resets initialState JSVal.null rfl⟩

/-- C5.  Submitting a `like` and then a `dislike` ballot for the same
(participant `u`, item `m`) through `addVote` keeps the vote-map keys
duplicate-free, leaves exactly one entry under the composite key `u_m`, and
that entry is the second ballot, whose decision is `dislike`. -/
theorem addVote_last_write_wins (s : AppSt) (r m u : String) (c1 c2 : JSVal)
    (t1 t2 : String) (hnd : (s.votes.map Prod.fst).Nodup) :
    (((addVote (submitVoteData r m u "dislike" c2 t2)
        (addVote (submitVoteData r m u "like" c1 t1) s)).votes.map Prod.fst).Nodup) ∧
    ((addVote (submitVoteData r m u "dislike" c2 t2)
        (addVote (submitVoteData r m u "like" c1 t1) s)).votes.map Prod.fst).count
        (u ++ "_" ++ m) = 1 ∧
    (addVote (submitVoteData r m u "dislike" c2 t2)
        (addVote (submitVoteData r m u "like" c1 t1) s)).votes.lookup (u ++ "_" ++ m)
      = some (submitVoteData r m u "dislike" c2 t2) ∧
    getProp (submitVoteData r m u "dislike" c2 t2) "vote" = .str "dislike" := by
  have ha1 : addVote (submitVoteData r m u "like" c1 t1) s
      = { s with votes := (objUpd s.votes (u ++ "_" ++ m) (submitVoteData r m u "like" c1 t1)) } := rfl
  have ha2 : ∀ s' : AppSt, addVote (submitVoteData r m u "dislike" c2 t2) s'
      = { s' with votes := (objUpd s'.votes (u ++ "_" ++ m) (submitVoteData r m u "dislike" c2 t2)) } := fun _ => rfl
  rw [ha1, ha2]
  have hnd1 : ((objUpd s.votes (u ++ "_" ++ m)
      (submitVoteData r m u "like" c1 t1)).map Prod.fst).Nodup :=
    objUpd_keys_nodup _ _ hnd
  have hnd2 := objUpd_keys_nodup (u ++ "_" ++ m)
    (submitVoteData r m u "dislike" c2 t2) hnd1
  have hmem1 : (u ++ "_" ++ m) ∈ (objUpd s.votes (u ++ "_" ++ m)
      (submitVoteData r m u "like" c1 t1)).map Prod.fst :=
    objUpd_keys_mem _ _ _
  have hkeys2 : (objUpd (objUpd s.votes (u ++ "_" ++ m)
        (submitVoteData r m u "like" c1 t1)) (u ++ "_" ++ m)
        (submitVoteData r m u "dislike" c2 t2)).map Prod.fst
      = (objUpd s.votes (u ++ "_" ++ m)
        (submitVoteData r m u "like" c1 t1)).map Prod.fst :=
    objUpd_keys_of_mem _ hmem1
  refine ⟨hnd2, ?_, objUpd_lookup_self _ _ _, rfl⟩
  rw [hkeys2]
  exact List.count_eq_one_of_mem hnd1 hmem1

/-- C5 witness: the spec's scenario — participant `u1`, item `m1`, decisions
`like` then `dislike`, starting from the initial (empty) store. -/
theorem addVote_last_write_wins_wit :
    (initialState.votes.map Prod.fst).Nodup ∧
    ((((addVote (submitVoteData "r1" "m1" "u1" "dislike" JSVal.null "t2")
        (addVote (submitVoteData "r1" "m1" "u1" "like" JSVal.null "t1")
          initialState)).votes.map Prod.fst).Nodup) ∧
    ((addVote (submitVoteData "r1" "m1" "u1" "dislike" JSVal.null "t2")
        (addVote (submitVoteData "r1" "m1" "u1" "like" JSVal.null "t1")
          initialState)).votes.map Prod.fst).count ("u1" ++ "_" ++ "m1") = 1 ∧
    (addVote (submitVoteData "r1" "m1" "u1" "dislike" JSVal.null "t2")
        (addVote (submitVoteData "r1" "m1" "u1" "like" JSVal.null "t1")
          initialState)).votes.lookup ("u1" ++ "_" ++ "m1")
      = some (submitVoteData "r1" "m1" "u1" "dislike" JSVal.null "t2") ∧
    getProp (submitVoteData "r1" "m1" "u1" "dislike" JSVal.null "t2") "vote"
      = .str "dislike") :=
  ⟨List.nodup_nil,
   addVote_last_write_wins initialState "r1" "m1" "u1" JSVal.null JSVal.null
     "t1" "t2" List.nodup_nil⟩

/-! ## Helper lemmas: the aggregators -/

/-- The integer condition `pctGE50` is exactly `percentage >= 50` in exact
rational arithmetic. -/
theorem percentageQ_ge50_iff (likes total : ℕ) :
    ((50 : ℚ) ≤ percentageQ likes total) ↔ pctGE50 likes total = true := by
  unfold percentageQ pctGE50
  by_cases h : 0 < total
  · rw [if_pos h, div_mul_eq_mul_div,
      le_div_iff₀ (show (0 : ℚ) < total by exact_mod_cast h)]
    simp only [Bool.and_eq_true, decide_eq_true_eq, h, true_and]
    constructor
    · intro hh
      have : (50 * total : ℕ) ≤ likes * 100 := by exact_mod_cast hh
      omega
    · intro hh
      have : (50 * total : ℕ) ≤ likes * 100 := by omega
      exact_mod_cast this
  · rw [if_neg h]
    simp only [Bool.and_eq_true, decide_eq_true_eq]
    constructor
    · intro hh; norm_num at hh
    · rintro ⟨h1, -⟩; exact absurd h1 h

/-- The integer condition `pctLT50` is exactly `percentage < 50` in exact
rational arithmetic. -/
theorem percentageQ_lt50_iff (likes total : ℕ) :
    (percentageQ likes total < (50 : ℚ)) ↔ pctLT50 likes total = true := by
  unfold percentageQ pctLT50
  by_cases h : 0 < total
  · have h0 : (total == 0) = false := by simp; omega
    rw [if_pos h, div_mul_eq_mul_div,
      div_lt_iff₀ (show (0 : ℚ) < total by exact_mod_cast h)]
    simp only [h0, Bool.false_or, decide_eq_true_eq]
    constructor
    · intro hh
      have : (likes * 100 : ℕ) < 50 * total := by exact_mod_cast hh
      omega
    · intro hh
      have : (likes * 100 : ℕ) < 50 * total := by omega
      exact_mod_cast this
  · have h0 : (total == 0) = true := by simp; omega
    rw [if_neg h]
    simp only [h0, Bool.true_or, iff_true]
    norm_num

/-- In a `tallyOne` record, `total` is `likes + dislikes`. -/
theorem tallyOne_total (votes : List Vote0) (m : SMod) :
    (tallyOne votes m).total = (tallyOne votes m).likes + (tallyOne votes m).dislikes := rfl

/-! ## Claim theorems: tied items (C1) -/

/-- C1 counterexample.  One mod with one `like` and one `dislike`
(`likes = dislikes = 1 > 0`): under `voteService.calculateResults` its
percentage is exactly 50, so it lands in the `approved` bucket (as well as in
`controversial`), refuting "appears in neither the approved nor the rejected
bucket" for that aggregator. -/
theorem tie_in_approved_cex :
    (calculateResults [⟨"m1", "A"⟩]
      [⟨"m1", "like", none⟩, ⟨"m1", "dislike", none⟩]).approved.map
        (fun r => (r.mod.id, r.likes, r.dislikes)) = [("m1", 1, 1)] ∧
    (calculateResults [⟨"m1", "A"⟩]
      [⟨"m1", "like", none⟩, ⟨"m1", "dislike", none⟩]).controversial.map
        (fun r => (r.mod.id, r.likes, r.dislikes)) = [("m1", 1, 1)] := by
  exact ⟨rfl, rfl⟩

/-- C1 (amended).  A tallied item with `likes = dislikes > 0` is always in
`controversial` and never in `rejected`, under both aggregators; under the
`ResultsPage` aggregator it is also never in `approved`, but under
`voteService.calculateResults` it additionally appears in `approved` (its
percentage is exactly 50). -/
theorem tie_bucket_rules (mods : List SMod) (votes : List Vote0)
    (e : RPEntry) (r : CalcResult) :
    (e ∈ (rpTally mods votes).map Prod.snd → e.likes = e.dislikes → 0 < e.likes →
      e ∈ (computeResults mods votes).controversial ∧
      e ∉ (computeResults mods votes).approved ∧
      e ∉ (computeResults mods votes).rejected) ∧
    (r ∈ mods.map (tallyOne votes) → r.likes = r.dislikes → 0 < r.likes →
      r ∈ (calculateResults mods votes).controversial ∧
      r ∈ (calculateResults mods votes).approved ∧
      r ∉ (calculateResults mods votes).rejected) := by
  constructor
  · intro he heq _
    refine ⟨?_, ?_, ?_⟩
    · unfold computeResults
      simp only [List.mem_insertionSort, List.mem_filter]
      exact ⟨he, by simp [heq]⟩
    · intro hmem
      unfold computeResults at hmem
      simp only [List.mem_insertionSort, List.mem_filter, decide_eq_true_eq] at hmem
      omega
    · intro hmem
      unfold computeResults at hmem
      simp only [List.mem_insertionSort, List.mem_filter, decide_eq_true_eq] at hmem
      omega
  · intro hr heq hpos
    rcases List.mem_map.mp hr with ⟨m, hm, rfl⟩
    have htot := tallyOne_total votes m
    refine ⟨?_, ?_, ?_⟩
    · unfold calculateResults
      simp only [List.mem_insertionSort, List.mem_filter, Bool.and_eq_true,
        decide_eq_true_eq]
      refine ⟨List.mem_map.mpr ⟨m, hm, rfl⟩, by omega, ?_⟩
      rw [heq]
      simp
    · unfold calculateResults
      simp only [List.mem_insertionSort, List.mem_filter]
      refine ⟨List.mem_map.mpr ⟨m, hm, rfl⟩, ?_⟩
      simp only [pctGE50, Bool.and_eq_true, decide_eq_true_eq]
      omega
    · intro hmem
      unfold calculateResults at hmem
      simp only [List.mem_insertionSort, List.mem_filter] at hmem
      have := hmem.2
      simp only [pctLT50, Bool.or_eq_true, beq_iff_eq, decide_eq_true_eq] at this
      omega

/-- C1 witness: the tie `likes = dislikes = 1` on mod `m1`, instantiating both
sides of `tie_bucket_rules`. -/
theorem tie_bucket_rules_wit :
    ((⟨1, 1, ⟨"m1", "A"⟩⟩ : RPEntry)
        ∈ (rpTally [⟨"m1", "A"⟩] [⟨"m1", "like", none⟩, ⟨"m1", "dislike", none⟩]).map Prod.snd ∧
     (⟨⟨"m1", "A"⟩, 1, 1, 2, []⟩ : CalcResult)
        ∈ ([⟨"m1", "A"⟩] : List SMod).map (tallyOne [⟨"m1", "like", none⟩, ⟨"m1", "dislike", none⟩])) ∧
    ((⟨1, 1, ⟨"m1", "A"⟩⟩ : RPEntry)
        ∈ (computeResults [⟨"m1", "A"⟩] [⟨"m1", "like", none⟩, ⟨"m1", "dislike", none⟩]).controversial ∧
     (⟨1, 1, ⟨"m1", "A"⟩⟩ : RPEntry)
        ∉ (computeResults [⟨"m1", "A"⟩] [⟨"m1", "like", none⟩, ⟨"m1", "dislike", none⟩]).approved ∧
     (⟨1, 1, ⟨"m1", "A"⟩⟩ : RPEntry)
        ∉ (computeResults [⟨"m1", "A"⟩] [⟨"m1", "like", none⟩, ⟨"m1", "dislike", none⟩]).rejected) ∧
    ((⟨⟨"m1", "A"⟩, 1, 1, 2, []⟩ : CalcResult)
        ∈ (calculateResults [⟨"m1", "A"⟩] [⟨"m1", "like", none⟩, ⟨"m1", "dislike", none⟩]).controversial ∧
     (⟨⟨"m1", "A"⟩, 1, 1, 2, []⟩ : CalcResult)
        ∈ (calculateResults [⟨"m1", "A"⟩] [⟨"m1", "like", none⟩, ⟨"m1", "dislike", none⟩]).approved ∧
     (⟨⟨"m1", "A"⟩, 1, 1, 2, []⟩ : CalcResult)
        ∉ (calculateResults [⟨"m1", "A"⟩] [⟨"m1", "like", none⟩, ⟨"m1", "dislike", none⟩]).rejected) :=
  ⟨⟨by decide, by decide⟩,
   (tie_bucket_rules [⟨"m1", "A"⟩] [⟨"m1", "like", none⟩, ⟨"m1", "dislike", none⟩]
      ⟨1, 1, ⟨"m1", "A"⟩⟩ ⟨⟨"m1", "A"⟩, 1, 1, 2, []⟩).1 (by decide) (by decide) (by decide),
   (tie_bucket_rules [⟨"m1", "A"⟩] [⟨"m1", "like", none⟩, ⟨"m1", "dislike", none⟩]
      ⟨1, 1, ⟨"m1", "A"⟩⟩ ⟨⟨"m1", "A"⟩, 1, 1, 2, []⟩).2 (by decide) (by decide) (by decide)⟩

/-! ## Claim theorems: zero-ballot items (C3) -/

/-- C3 counterexample.  A mod with no ballots at all: under the `ResultsPage`
aggregator it lands in `controversial` (`0 === 0`), and the `rejected` bucket
stays empty — refuting "appears in the rejected bucket" for that aggregator. -/
theorem zero_ballots_not_rejected_cex :
    (computeResults [⟨"m3", "C"⟩] []).rejected = [] ∧
    (computeResults [⟨"m3", "C"⟩] []).controversial = [⟨0, 0, ⟨"m3", "C"⟩⟩] := by
  exact ⟨rfl, rfl⟩

/-- C3 (amended).  A tallied item with zero ballots (`likes = dislikes = 0`)
is in `rejected` and in no other bucket under `voteService.calculateResults`
(its percentage is 0), but under the `ResultsPage` aggregator it is in
`controversial` and in no other bucket. -/
theorem zero_ballots_bucket_rules (mods : List SMod) (votes : List Vote0)
    (e : RPEntry) (r : CalcResult) :
    (r ∈ mods.map (tallyOne votes) → r.likes = 0 → r.dislikes = 0 →
      r ∈ (calculateResults mods votes).rejected ∧
      r ∉ (calculateResults mods votes).approved ∧
      r ∉ (calculateResults mods votes).controversial) ∧
    (e ∈ (rpTally mods votes).map Prod.snd → e.likes = 0 → e.dislikes = 0 →
      e ∈ (computeResults mods votes).controversial ∧
      e ∉ (computeResults mods votes).approved ∧
      e ∉ (computeResults mods votes).rejected) := by
  constructor
  · intro hr hl hd
    rcases List.mem_map.mp hr with ⟨m, hm, rfl⟩
    have htot := tallyOne_total votes m
    refine ⟨?_, ?_, ?_⟩
    · unfold calculateResults
      simp only [List.mem_insertionSort, List.mem_filter]
      refine ⟨List.mem_map.mpr ⟨m, hm, rfl⟩, ?_⟩
      simp only [pctLT50, Bool.or_eq_true, beq_iff_eq, decide_eq_true_eq]
      omega
    · intro hmem
      unfold calculateResults at hmem
      simp only [List.mem_insertionSort, List.mem_filter] at hmem
      have := hmem.2
      simp only [pctGE50, Bool.and_eq_true, decide_eq_true_eq] at this
      omega
    · intro hmem
      unfold calculateResults at hmem
      simp only [List.mem_insertionSort, List.mem_filter, Bool.and_eq_true,
        decide_eq_true_eq] at hmem
      omega
  · intro he hl hd
    refine ⟨?_, ?_, ?_⟩
    · unfold computeResults
      simp only [List.mem_insertionSort, List.mem_filter]
      exact ⟨he, by simp [hl, hd]⟩
    · intro hmem
      unfold computeResults at hmem
      simp only [List.mem_insertionSort, List.mem_filter, decide_eq_true_eq] at hmem
      omega
    · intro hmem
      unfold computeResults at hmem
      simp only [List.mem_insertionSort, List.mem_filter, decide_eq_true_eq] at hmem
      omega

/-- C3 witness: one mod, no ballots, instantiating both sides of
`zero_ballots_bucket_rules`. -/
theorem zero_ballots_bucket_rules_wit :
    ((⟨⟨"m3", "C"⟩, 0, 0, 0, []⟩ : CalcResult)
        ∈ ([⟨"m3", "C"⟩] : List SMod).map (tallyOne []) ∧
     (⟨0, 0, ⟨"m3", "C"⟩⟩ : RPEntry) ∈ (rpTally [⟨"m3", "C"⟩] []).map Prod.snd) ∧
    ((⟨⟨"m3", "C"⟩, 0, 0, 0, []⟩ : CalcResult)
        ∈ (calculateResults [⟨"m3", "C"⟩] []).rejected ∧
     (⟨⟨"m3", "C"⟩, 0, 0, 0, []⟩ : CalcResult)
        ∉ (calculateResults [⟨"m3", "C"⟩] []).approved ∧
     (⟨⟨"m3", "C"⟩, 0, 0, 0, []⟩ : CalcResult)
        ∉ (calculateResults [⟨"m3", "C"⟩] []).controversial) ∧
    ((⟨0, 0, ⟨"m3", "C"⟩⟩ : RPEntry)
        ∈ (computeResults [⟨"m3", "C"⟩] []).controversial ∧
     (⟨0, 0, ⟨"m3", "C"⟩⟩ : RPEntry)
        ∉ (computeResults [⟨"m3", "C"⟩] []).approved ∧
     (⟨0, 0, ⟨"m3", "C"⟩⟩ : RPEntry)
        ∉ (computeResults [⟨"m3", "C"⟩] []).rejected) :=
  ⟨⟨by decide, by decide⟩,
   (zero_ballots_bucket_rules [⟨"m3", "C"⟩] [] ⟨0, 0, ⟨"m3", "C"⟩⟩
      ⟨⟨"m3", "C"⟩, 0, 0, 0, []⟩).1 (by decide) (by decide) (by decide),
   (zero_ballots_bucket_rules [⟨"m3", "C"⟩] [] ⟨0, 0, ⟨"m3", "C"⟩⟩
      ⟨⟨"m3", "C"⟩, 0, 0, 0, []⟩).2 (by decide) (by decide) (by decide)⟩

/-! ## Claim theorems: bucket sort order (C4) -/

/-- C4.  In both aggregators' outputs, `approved` is sorted descending by
`likes`, `rejected` descending by `dislikes`, and `controversial` descending
by total vote count (in the `ResultsPage` aggregator the comparator is
`likes`, which coincides with `total` on the all-tied `controversial`
bucket). -/
theorem buckets_sorted_desc (mods : List SMod) (votes : List Vote0) :
    List.Sorted (fun a b : CalcResult => b.likes ≤ a.likes)
      (calculateResults mods votes).approved ∧
    List.Sorted (fun a b : CalcResult => b.dislikes ≤ a.dislikes)
      (calculateResults mods votes).rejected ∧
    List.Sorted (fun a b : CalcResult => b.total ≤ a.total)
      (calculateResults mods votes).controversial ∧
    List.Sorted (fun a b : RPEntry => b.likes ≤ a.likes)
      (computeResults mods votes).approved ∧
    List.Sorted (fun a b : RPEntry => b.dislikes ≤ a.dislikes)
      (computeResults mods votes).rejected ∧
    List.Sorted (fun a b : RPEntry => b.likes + b.dislikes ≤ a.likes + a.dislikes)
      (computeResults mods votes).controversial := by
  haveI i1 : IsTotal CalcResult (fun a b => b.likes ≤ a.likes) :=
    ⟨fun _ _ => Nat.le_total _ _⟩
  haveI i2 : IsTrans CalcResult (fun a b => b.likes ≤ a.likes) :=
    ⟨fun _ _ _ h1 h2 => le_trans h2 h1⟩
  haveI i3 : IsTotal CalcResult (fun a b => b.dislikes ≤ a.dislikes) :=
    ⟨fun _ _ => Nat.le_total _ _⟩
  haveI i4 : IsTrans CalcResult (fun a b => b.dislikes ≤ a.dislikes) :=
    ⟨fun _ _ _ h1 h2 => le_trans h2 h1⟩
  haveI i5 : IsTotal CalcResult (fun a b => b.total ≤ a.total) :=
    ⟨fun _ _ => Nat.le_total _ _⟩
  haveI i6 : IsTrans CalcResult (fun a b => b.total ≤ a.total) :=
    ⟨fun _ _ _ h1 h2 => le_trans h2 h1⟩
  haveI i7 : IsTotal RPEntry (fun a b => b.likes ≤ a.likes) :=
    ⟨fun _ _ => Nat.le_total _ _⟩
  haveI i8 : IsTrans RPEntry (fun a b => b.likes ≤ a.likes) :=
    ⟨fun _ _ _ h1 h2 => le_trans h2 h1⟩
  haveI i9 : IsTotal RPEntry (fun a b => b.dislikes ≤ a.dislikes) :=
    ⟨fun _ _ => Nat.le_total _ _⟩
  haveI i10 : IsTrans RPEntry (fun a b => b.dislikes ≤ a.dislikes) :=
    ⟨fun _ _ _ h1 h2 => le_trans h2 h1⟩
  have hctie : ∀ x : RPEntry, x ∈ (computeResults mods votes).controversial →
      x.likes = x.dislikes := by
    intro x hx
    unfold computeResults at hx
    simp only [List.mem_insertionSort, List.mem_filter, beq_iff_eq] at hx
    exact hx.2
  have hcs : List.Sorted (fun a b : RPEntry => b.likes ≤ a.likes)
      (computeResults mods votes).controversial := by
    unfold computeResults
    exact List.sorted_insertionSort _ _
  refine ⟨?_, ?_, ?_, ?_, ?_, ?_⟩
  · unfold calculateResults; exact List.sorted_insertionSort _ _
  · unfold calculateResults; exact List.sorted_insertionSort _ _
  · unfold calculateResults; exact List.sorted_insertionSort _ _
  · unfold computeResults; exact List.sorted_insertionSort _ _
  · unfold computeResults; exact List.sorted_insertionSort _ _
  · exact List.Pairwise.imp_of_mem
      (fun ha hb hab => by
        have h1 := hctie _ ha
        have h2 := hctie _ hb
        omega) hcs

/-! ## Helper lemmas: the `ResultsPage` tally preserves mods and keys -/

theorem objUpd_map_of_lookup {β γ : Type} (f : String × β → γ)
    {l : List (String × β)} {k : String} {e : β} (v : β)
    (hl : l.lookup k = some e) (hf : f (k, v) = f (k, e)) :
    (objUpd l k v).map f = l.map f := by
  induction l with
  | nil => simp [List.lookup] at hl
  | cons p t ih =>
    rcases p with ⟨k', v'⟩
    by_cases h : k' = k
    · subst h
      have hv : v' = e := by simpa [List.lookup] using hl
      subst hv
      simp [objUpd, hf]
    · have hk : (k == k') = false := by
        simp only [beq_eq_false_iff_ne]
        exact fun hh => h hh.symm
      have hl' : t.lookup k = some e := by simpa [List.lookup, hk] using hl
      simp [objUpd, h, ih hl']

/-- Counting a vote never changes the keys or the `mod` payloads of the
`modVotes` record. -/
theorem applyVote_map_mod (acc : List (String × RPEntry)) (v : Vote0) :
    (applyVote acc v).map (fun p => (p.1, p.2.mod))
      = acc.map (fun p => (p.1, p.2.mod)) := by
  unfold applyVote
  rcases hl : acc.lookup v.modId with _ | e
  · rfl
  · exact objUpd_map_of_lookup _ _ hl (by cases hv : v.vote == "like" <;> simp [hv])

theorem foldl_applyVote_map_mod (votes : List Vote0) (acc : List (String × RPEntry)) :
    (votes.foldl applyVote acc).map (fun p => (p.1, p.2.mod))
      = acc.map (fun p => (p.1, p.2.mod)) := by
  induction votes generalizing acc with
  | nil => rfl
  | cons v t ih => rw [List.foldl_cons, ih, applyVote_map_mod]

theorem initVotes_go (mods : List SMod) (acc : List (String × RPEntry))
    (h : (mods.map SMod.id).Nodup) (hd : ∀ m ∈ mods, m.id ∉ acc.map Prod.fst) :
    mods.foldl (fun acc m => objUpd acc m.id ⟨0, 0, m⟩) acc
      = acc ++ mods.map (fun m => (m.id, (⟨0, 0, m⟩ : RPEntry))) := by
  induction mods generalizing acc with
  | nil => simp
  | cons m t ih =>
    rw [List.foldl_cons, objUpd_of_not_mem _ (hd m (by simp))]
    have hpair : (∀ x ∈ t, ¬x.id = m.id) ∧ (t.map SMod.id).Nodup := by
      simpa using h
    have hd' : ∀ m' ∈ t, m'.id ∉ (acc ++ [(m.id, (⟨0, 0, m⟩ : RPEntry))]).map Prod.fst := by
      intro m' hm'
      simp only [List.map_append, List.mem_append, not_or]
      exact ⟨hd m' (by simp [hm']), by simpa using hpair.1 m' hm'⟩
    rw [ih _ hpair.2 hd']
    simp

theorem initVotes_eq (mods : List SMod) (h : (mods.map SMod.id).Nodup) :
    initVotes mods = mods.map (fun m => (m.id, (⟨0, 0, m⟩ : RPEntry))) := by
  unfold initVotes
  rw [initVotes_go mods [] h (by simp)]
  simp

theorem rpTally_map_mod (mods : List SMod) (votes : List Vote0)
    (h : (mods.map SMod.id).Nodup) :
    (rpTally mods votes).map (fun p => (p.1, p.2.mod))
      = mods.map (fun m => (m.id, m)) := by
  unfold rpTally
  rw [foldl_applyVote_map_mod, initVotes_eq mods h, List.map_map]
  rfl

theorem rpValues_mod (mods : List SMod) (votes : List Vote0)
    (h : (mods.map SMod.id).Nodup) :
    ((rpTally mods votes).map Prod.snd).map RPEntry.mod = mods := by
  have h1 : ((rpTally mods votes).map Prod.snd).map RPEntry.mod
      = ((rpTally mods votes).map (fun p => (p.1, p.2.mod))).map Prod.snd := by
    simp [List.map_map]
  rw [h1, rpTally_map_mod mods votes h, List.map_map]
  exact List.map_id mods

theorem rpValues_modid (mods : List SMod) (votes : List Vote0)
    (h : (mods.map SMod.id).Nodup) :
    ((rpTally mods votes).map Prod.snd).map (fun e => e.mod.id)
      = mods.map SMod.id := by
  have h1 : ((rpTally mods votes).map Prod.snd).map (fun e => e.mod.id)
      = ((rpTally mods votes).map (fun p => (p.1, p.2.mod))).map (fun q => q.2.id) := by
    simp [List.map_map]
  rw [h1, rpTally_map_mod mods votes h, List.map_map]
  rfl

/-- Splitting a list by three mutually exclusive, exhaustive predicates and
concatenating the parts permutes the list. -/
theorem filter_three_perm {α : Type} (l : List α) (p q r : α → Bool)
    (h : ∀ x, (p x = true ∧ q x = false ∧ r x = false) ∨
          (p x = false ∧ q x = true ∧ r x = false) ∨
          (p x = false ∧ q x = false ∧ r x = true)) :
    (l.filter p ++ l.filter q ++ l.filter r).Perm l := by
  induction l with
  | nil => simp
  | cons x t ih =>
    rcases h x with ⟨h1, h2, h3⟩ | ⟨h1, h2, h3⟩ | ⟨h1, h2, h3⟩
    · simpa [List.filter_cons, h1, h2, h3] using ih.cons x
    · have key : (t.filter p ++ x :: (t.filter q ++ t.filter r)).Perm (x :: t) :=
        List.perm_middle.trans
          (List.Perm.cons x (by simpa [List.append_assoc] using ih))
      simpa [List.filter_cons, h1, h2, h3, List.append_assoc] using key
    · have key : ((t.filter p ++ t.filter q) ++ x :: t.filter r).Perm (x :: t) :=
        List.perm_middle.trans (List.Perm.cons x ih)
      simpa [List.filter_cons, h1, h2, h3, List.append_assoc] using key

/-! ## Claim theorems: partition (C2) -/

/-- C2 counterexample.  One mod with two `like`s and two `dislike`s: under
`voteService.calculateResults` it appears in the `approved` bucket and in the
`controversial` bucket at the same time, so the three buckets are not pairwise
disjoint. -/
theorem buckets_overlap_cex :
    (calculateResults [⟨"m2", "B"⟩]
      [⟨"m2", "like", none⟩, ⟨"m2", "like", none⟩,
       ⟨"m2", "dislike", none⟩, ⟨"m2", "dislike", none⟩]).approved.map
        (fun r => r.mod.id) = ["m2"] ∧
    (calculateResults [⟨"m2", "B"⟩]
      [⟨"m2", "like", none⟩, ⟨"m2", "like", none⟩,
       ⟨"m2", "dislike", none⟩, ⟨"m2", "dislike", none⟩]).controversial.map
        (fun r => r.mod.id) = ["m2"] := by
  exact ⟨rfl, rfl⟩

/-- C2 (amended).  For item lists with pairwise-distinct ids, the
`ResultsPage` aggregator partitions the items into three buckets whose
concatenation is a permutation of the input item list (no item missing or
duplicated) with pairwise-distinct ids across the buckets (no item in two
buckets).  `voteService.calculateResults` does not satisfy this: its
`controversial` bucket overlaps `approved`/`rejected` (see the
counterexample). -/
theorem computeResults_partition (mods : List SMod) (votes : List Vote0)
    (h : (mods.map SMod.id).Nodup) :
    (((computeResults mods votes).approved ++ (computeResults mods votes).rejected
        ++ (computeResults mods votes).controversial).map RPEntry.mod).Perm mods ∧
    (((computeResults mods votes).approved ++ (computeResults mods votes).rejected
        ++ (computeResults mods votes).controversial).map (fun e => e.mod.id)).Nodup := by
  have htri : ∀ x : RPEntry,
      ((fun e : RPEntry => decide (e.dislikes < e.likes)) x = true ∧
        (fun e : RPEntry => decide (e.likes < e.dislikes)) x = false ∧
        (fun e : RPEntry => e.likes == e.dislikes) x = false) ∨
      ((fun e : RPEntry => decide (e.dislikes < e.likes)) x = false ∧
        (fun e : RPEntry => decide (e.likes < e.dislikes)) x = true ∧
        (fun e : RPEntry => e.likes == e.dislikes) x = false) ∨
      ((fun e : RPEntry => decide (e.dislikes < e.likes)) x = false ∧
        (fun e : RPEntry => decide (e.likes < e.dislikes)) x = false ∧
        (fun e : RPEntry => e.likes == e.dislikes) x = true) := by
    intro x
    simp only [decide_eq_true_eq, decide_eq_false_iff_not, beq_iff_eq,
      beq_eq_false_iff_ne, ne_eq, Nat.not_lt]
    omega
  have hperm : ((computeResults mods votes).approved
      ++ (computeResults mods votes).rejected
      ++ (computeResults mods votes).controversial).Perm
      ((rpTally mods votes).map Prod.snd) := by
    unfold computeResults
    refine List.Perm.trans
      (List.Perm.append
        (List.Perm.append (List.perm_insertionSort _ _) (List.perm_insertionSort _ _))
        (List.perm_insertionSort _ _)) ?_
    exact filter_three_perm _ _ _ _ htri
  constructor
  · have hmap := hperm.map RPEntry.mod
    rwa [rpValues_mod mods votes h] at hmap
  · have hids := hperm.map (fun e => e.mod.id)
    rw [rpValues_modid mods votes h] at hids
    exact hids.nodup_iff.mpr h

/-- C2 witness: two distinct mods, one vote. -/
theorem computeResults_partition_wit :
    ((([⟨"a", "A"⟩, ⟨"b", "B"⟩] : List SMod).map SMod.id).Nodup) ∧
    ((((computeResults [⟨"a", "A"⟩, ⟨"b", "B"⟩] [⟨"a", "like", none⟩]).approved
        ++ (computeResults [⟨"a", "A"⟩, ⟨"b", "B"⟩] [⟨"a", "like", none⟩]).rejected
        ++ (computeResults [⟨"a", "A"⟩, ⟨"b", "B"⟩] [⟨"a", "like", none⟩]).controversial).map
          RPEntry.mod).Perm [⟨"a", "A"⟩, ⟨"b", "B"⟩] ∧
     (((computeResults [⟨"a", "A"⟩, ⟨"b", "B"⟩] [⟨"a", "like", none⟩]).approved
        ++ (computeResults [⟨"a", "A"⟩, ⟨"b", "B"⟩] [⟨"a", "like", none⟩]).rejected
        ++ (computeResults [⟨"a", "A"⟩, ⟨"b", "B"⟩] [⟨"a", "like", none⟩]).controversial).map
          (fun e => e.mod.id)).Nodup) :=
  ⟨by decide,
   computeResults_partition [⟨"a", "A"⟩, ⟨"b", "B"⟩] [⟨"a", "like", none⟩] (by decide)⟩

/-! ## Helper lemmas: validation (C8) -/

/-- A required-string guard that evaluates to false pins the value down to a
non-empty string. -/
theorem strGuard_false_iff (v : JSVal) :
    ((!truthy v || typeOf v != "string") = false) ↔ ∃ s, v = .str s ∧ s ≠ "" := by
  constructor
  · intro h
    rw [Bool.or_eq_false_iff] at h
    have h1 : truthy v = true := by simpa using h.1
    have h2 : typeOf v = "string" := by simpa using h.2
    cases v with
    | str s => exact ⟨s, rfl, by simpa [truthy] using h1⟩
    | null => simp [typeOf] at h2
    | undefinedV => simp [typeOf] at h2
    | bool b => simp [typeOf] at h2
    | num n => simp [typeOf] at h2
    | date t => simp [typeOf] at h2
    | arr xs => simp [typeOf] at h2
    | obj fs => simp [typeOf] at h2
  · rintro ⟨s, rfl, hs⟩
    simp [truthy, typeOf, hs]

/-- For an optional field that passed its guard, `v || undefined` passes the
guard again and is a fixed point of `· || undefined`. -/
theorem optGuard_stable {u : JSVal}
    (h : (truthy u && typeOf u != "string") = false) :
    (truthy (jsOr u .undefinedV) && typeOf (jsOr u .undefinedV) != "string") = false ∧
    jsOr (jsOr u .undefinedV) .undefinedV = jsOr u .undefinedV := by
  by_cases ht : truthy u = true
  · constructor
    · simpa [jsOr, ht] using h
    · simp [jsOr, ht]
  · have ht' : truthy u = false := by simpa using ht
    have h1 : jsOr u JSVal.undefinedV = JSVal.undefinedV := by simp [jsOr, ht']
    refine ⟨?_, ?_⟩ <;> rw [h1] <;> rfl

/-- Revalidating the object literal built by `validateModData` rebuilds the
same object. -/
theorem mkValidatedMod_stable (data : JSVal) (cd : JSVal)
    (hueq : jsOr (jsOr (getProp data "url") JSVal.undefinedV) JSVal.undefinedV
      = jsOr (getProp data "url") JSVal.undefinedV)
    (hieq : jsOr (jsOr (getProp data "image") JSVal.undefinedV) JSVal.undefinedV
      = jsOr (getProp data "image") JSVal.undefinedV) :
    mkValidatedMod (mkValidatedMod data cd) cd = mkValidatedMod data cd := by
  have hstep : mkValidatedMod (mkValidatedMod data cd) cd
      = JSVal.obj [("id", getProp data "id"), ("roomId", getProp data "roomId"),
          ("name", getProp data "name"),
          ("url", jsOr (jsOr (getProp data "url") JSVal.undefinedV) JSVal.undefinedV),
          ("description", getProp data "description"),
          ("image", jsOr (jsOr (getProp data "image") JSVal.undefinedV) JSVal.undefinedV),
          ("proposedBy", getProp data "proposedBy"), ("createdAt", cd)] := rfl
  rw [hstep, hueq, hieq]
  rfl

/-- Feeding a `validateModData` success back in succeeds with the same value,
given the guards the original input already passed. -/
theorem validateModData_refeed (pd : String → Option Int) (data : JSVal) (τ : Option Int)
    (hid : (!truthy (getProp data "id") || typeOf (getProp data "id") != "string") = false)
    (hroom : (!truthy (getProp data "roomId") || typeOf (getProp data "roomId") != "string") = false)
    (hname : (!truthy (getProp data "name") || typeOf (getProp data "name") != "string") = false)
    (hdesc : (!truthy (getProp data "description")
      || typeOf (getProp data "description") != "string") = false)
    (hprop : (!truthy (getProp data "proposedBy")
      || typeOf (getProp data "proposedBy") != "string") = false)
    (hurl : (truthy (getProp data "url") && typeOf (getProp data "url") != "string") = false)
    (himg : (truthy (getProp data "image") && typeOf (getProp data "image") != "string") = false) :
    validateModData pd (mkValidatedMod data (JSVal.date τ))
      = .ok (mkValidatedMod data (JSVal.date τ)) := by
  obtain ⟨sid, hid1, hid0⟩ := (strGuard_false_iff _).mp hid
  obtain ⟨sroom, hroom1, hroom0⟩ := (strGuard_false_iff _).mp hroom
  obtain ⟨sname, hname1, hname0⟩ := (strGuard_false_iff _).mp hname
  obtain ⟨sdesc, hdesc1, hdesc0⟩ := (strGuard_false_iff _).mp hdesc
  obtain ⟨sprop, hprop1, hprop0⟩ := (strGuard_false_iff _).mp hprop
  obtain ⟨hug, hueq⟩ := optGuard_stable hurl
  obtain ⟨hig, hieq⟩ := optGuard_stable himg
  have gid : getProp (mkValidatedMod data (JSVal.date τ)) "id" = getProp data "id" := rfl
  have groom : getProp (mkValidatedMod data (JSVal.date τ)) "roomId"
      = getProp data "roomId" := rfl
  have gname : getProp (mkValidatedMod data (JSVal.date τ)) "name"
      = getProp data "name" := rfl
  have gdesc : getProp (mkValidatedMod data (JSVal.date τ)) "description"
      = getProp data "description" := rfl
  have gprop : getProp (mkValidatedMod data (JSVal.date τ)) "proposedBy"
      = getProp data "proposedBy" := rfl
  have gurl : getProp (mkValidatedMod data (JSVal.date τ)) "url"
      = jsOr (getProp data "url") JSVal.undefinedV := rfl
  have gimg : getProp (mkValidatedMod data (JSVal.date τ)) "image"
      = jsOr (getProp data "image") JSVal.undefinedV := rfl
  have gcd : getProp (mkValidatedMod data (JSVal.date τ)) "createdAt"
      = JSVal.date τ := rfl
  have gtr : truthy (mkValidatedMod data (JSVal.date τ)) = true := rfl
  have gty : typeOf (mkValidatedMod data (JSVal.date τ)) = "object" := rfl
  unfold validateModData
  rw [gtr, gty, gid, groom, gname, gdesc, gprop, gurl, gimg, gcd,
    hid1, hroom1, hname1, hdesc1, hprop1, hug, hig]
  simp only [truthy, typeOf, Bool.not_true, Bool.false_or, bne_self_eq_false,
    Bool.or_false, if_false, Bool.false_eq_true, ite_false]
  rw [if_neg (by simp [hid0]), if_neg (by simp [hroom0]), if_neg (by simp [hname0]),
    if_neg (by simp [hdesc0]), if_neg (by simp [hprop0])]
  rw [mkValidatedMod_stable data (JSVal.date τ) hueq hieq]

/-! ## Claim theorems: validation idempotence (C8) -/

/-- C8.  Any record produced by `validateModData`, fed back into
`validateModData`, validates successfully and yields the same value — for
every date-string parser. -/
theorem validateModData_idempotent (pd : String → Option Int) (data out : JSVal)
    (h : validateModData pd data = .ok out) :
    validateModData pd out = .ok out := by
  unfold validateModData at h
  split_ifs at h with h1 h2 h3 h4 h5 h6 h7 h8
  have h2' : (!truthy (getProp data "id") || typeOf (getProp data "id") != "string")
      = false := by simpa using h2
  have h3' : (!truthy (getProp data "roomId")
      || typeOf (getProp data "roomId") != "string") = false := by simpa using h3
  have h4' : (!truthy (getProp data "name")
      || typeOf (getProp data "name") != "string") = false := by simpa using h4
  have h5' : (!truthy (getProp data "description")
      || typeOf (getProp data "description") != "string") = false := by simpa using h5
  have h6' : (!truthy (getProp data "proposedBy")
      || typeOf (getProp data "proposedBy") != "string") = false := by simpa using h6
  have h7' : (truthy (getProp data "url")
      && typeOf (getProp data "url") != "string") = false := by simpa using h7
  have h8' : (truthy (getProp data "image")
      && typeOf (getProp data "image") != "string") = false := by simpa using h8
  split at h
  · rename_i t heq
    rw [← Except.ok.inj h]
    exact validateModData_refeed pd data t h2' h3' h4' h5' h6' h7' h8'
  · split at h
    · rename_i t0 heq0
      rw [← Except.ok.inj h]
      exact validateModData_refeed pd data (some t0) h2' h3' h4' h5' h6' h7' h8'
    · exact Except.noConfusion h
  · exact Except.noConfusion h

/-- C8 witness: a concrete well-formed record round-trips. -/
theorem validateModData_idempotent_wit :
    validateModData (fun _ => none)
      (JSVal.obj [("id", JSVal.str "1"), ("roomId", JSVal.str "r"),
        ("name", JSVal.str "n"), ("description", JSVal.str "d"),
        ("proposedBy", JSVal.str "u"), ("createdAt", JSVal.date (some 0))])
      = .ok (JSVal.obj [("id", JSVal.str "1"), ("roomId", JSVal.str "r"),
        ("name", JSVal.str "n"), ("url", JSVal.undefinedV),
        ("description", JSVal.str "d"), ("image", JSVal.undefinedV),
        ("proposedBy", JSVal.str "u"), ("createdAt", JSVal.date (some 0))]) ∧
    validateModData (fun _ => none)
      (JSVal.obj [("id", JSVal.str "1"), ("roomId", JSVal.str "r"),
        ("name", JSVal.str "n"), ("url", JSVal.undefinedV),
        ("description", JSVal.str "d"), ("image", JSVal.undefinedV),
        ("proposedBy", JSVal.str "u"), ("createdAt", JSVal.date (some 0))])
      = .ok (JSVal.obj [("id", JSVal.str "1"), ("roomId", JSVal.str "r"),
        ("name", JSVal.str "n"), ("url", JSVal.undefinedV),
        ("description", JSVal.str "d"), ("image", JSVal.undefinedV),
        ("proposedBy", JSVal.str "u"), ("createdAt", JSVal.date (some 0))]) :=
  ⟨rfl,
   validateModData_idempotent (fun _ => none)
     (JSVal.obj [("id", JSVal.str "1"), ("roomId", JSVal.str "r"),
       ("name", JSVal.str "n"), ("description", JSVal.str "d"),
       ("proposedBy", JSVal.str "u"), ("createdAt", JSVal.date (some 0))])
     (JSVal.obj [("id", JSVal.str "1"), ("roomId", JSVal.str "r"),
       ("name", JSVal.str "n"), ("url", JSVal.undefinedV),
       ("description", JSVal.str "d"), ("image", JSVal.undefinedV),
       ("proposedBy", JSVal.str "u"), ("createdAt", JSVal.date (some 0))])
     rfl⟩
